import Mathlib

/-!
Shallow embedding of `helper.py` (tencentcloud-clb-helper).

The embedded core is the state-aware layer between the cloud API and the CLI:
* `aggregateTargets` / `sortTargetInstances` / `req_describe_targets` embed
  `TencentCloudCLBHelper._req_describe_targets` (topology checks, grouping by the
  first private IP, stable sort by instance name);
* `req_batch_modify_target_weight` embeds the construction of the
  `BatchModifyTargetWeight` request;
* `change_clb_instance_weight` embeds `_change_clb_instance_weight`
  (drain guard, not-found check, single mutation);
* `online_clb_instance` / `offline_clb_instance` embed the orchestrators.

External effects (gateway calls, console prints, the settle sleep) are made
explicit: a `World` carries the gateway oracle (the response handed back by the
k-th `DescribeTargets` call), the opaque acknowledgement returned by
`BatchModifyTargetWeight`, and the ordered trace of effects performed so far.
Python exceptions become `Except HelperError`; the exact exception message
strings are reproduced by `HelperError.message`.  Table rendering is recorded
as a `renderTable` effect carrying the aggregated instances; the rich-text
markup of the presentation layer is not modelled (it is an external
collaborator in the spec's sense).
-/

namespace CLBHelper

/-- One raw per-port target record as returned by `DescribeTargets`
(`target` in the Python loop). -/
structure RawTarget where
  InstanceId : String
  InstanceName : String
  PrivateIpAddresses : List String
  Port : Nat
  Weight : Nat
deriving DecidableEq, Repr

/-- A rule under a listener (`listener.Rules[i]`). -/
structure Rule where
  LocationId : String
  Targets : List RawTarget
deriving DecidableEq, Repr

/-- A listener of the load balancer (`resp.Listeners[i]`); `Rules` is optional
because the Python code checks `listener.Rules is None`. -/
structure Listener where
  ListenerId : String
  Rules : Option (List Rule)
deriving DecidableEq, Repr

/-- The `DescribeTargets` response; `Listeners` is optional because the Python
code checks `resp.Listeners is None`. -/
structure DescribeTargetsResponse where
  Listeners : Option (List Listener)
deriving DecidableEq, Repr

/-- One aggregated backend instance (`targets_by_ip[private_ip]` in the Python
code): identifier, display name, the grouping IP, and the ordered
(port, weight) pairs. -/
structure TargetInstance where
  InstanceId : String
  InstanceName : String
  PrivateIpAddresses : String
  Ports : List (Nat × Nat)
deriving DecidableEq, Repr

/-- The errors raised by the embedded code, with the data embedded into each
Python exception message. `rulesCount` carries the number that the source
interpolates into the message — which is `len(resp.Listeners)`, not the number
of rules (`helper.py` line 131). -/
inductive HelperError where
  | listenersNone : HelperError
  | listenersCount : Nat → HelperError
  | rulesNone : HelperError
  | rulesCount : Nat → HelperError
  | drainGuard : String → String → HelperError
  | notFound : String → String → HelperError
deriving DecidableEq, Repr

/-- The exact exception message strings of the Python source. -/
def HelperError.message : HelperError → String
  | listenersNone => "DescribeTargets 失败，Listeners 为 None"
  | listenersCount n => "DescribeTargets 失败，监听器数量为 " ++ toString n ++ " != 1"
  | rulesNone => "DescribeTargets 失败，Rules 为 None"
  | rulesCount n => "DescribeTargets 失败，Rules 数量为 " ++ toString n ++ " != 1"
  | drainGuard clb_id instance_id =>
      "CLB " ++ clb_id ++ " 除 " ++ instance_id ++ " 外的其他节点都为离线，禁止操作，否则服务挂掉！"
  | notFound clb_id instance_id =>
      "CLB " ++ clb_id ++ " 的后端中没有节点 " ++ instance_id ++ " 的端口"

/-- `target.PrivateIpAddresses[0]`: the first private IP of a raw record (the
gateway contract guarantees the list is non-empty). -/
def RawTarget.firstIp (t : RawTarget) : String :=
  t.PrivateIpAddresses.headD ""

/-- The fresh group created when a first private IP is seen for the first
time: the metadata (`InstanceId`, `InstanceName`) of this first record and its
single (port, weight) pair. -/
def newGroup (t : RawTarget) : TargetInstance :=
  { InstanceId := t.InstanceId, InstanceName := t.InstanceName,
    PrivateIpAddresses := t.firstIp, Ports := [(t.Port, t.Weight)] }

/-- `targets_by_ip[private_ip]["Ports"].append((target.Port, target.Weight))`:
append the record's (port, weight) pair to the group keyed by its first
private IP, leaving every other group unchanged. -/
def appendPort (t : RawTarget) (g : TargetInstance) : TargetInstance :=
  if g.PrivateIpAddresses == t.firstIp then
    { g with Ports := g.Ports ++ [(t.Port, t.Weight)] }
  else g

/-- One step of the grouping loop over `listener.Rules[0].Targets`: if the
record's first private IP is already a key of `targets_by_ip`, append its
(port, weight) pair to that group, otherwise create a new group at the end
(Python dicts preserve insertion order). -/
def insertTarget (acc : List TargetInstance) (t : RawTarget) : List TargetInstance :=
  if acc.any (fun g => g.PrivateIpAddresses == t.firstIp) then
    acc.map (appendPort t)
  else
    acc ++ [newGroup t]

/-- The grouping loop of `_req_describe_targets` (lines 133-144): fold the raw
records into insertion-ordered groups keyed by first private IP. -/
def aggregateTargets (ts : List RawTarget) : List TargetInstance :=
  ts.foldl insertTarget []

/-- Code-point lexicographic `≤` on character lists: Python compares `str`
keys exactly this way (case-sensitive, by Unicode code point).  Proved below
to agree with the standard order on `String`. -/
def charListLe : List Char → List Char → Bool
  | [], _ => true
  | _ :: _, [] => false
  | a :: as, b :: bs =>
    if a < b then true
    else if b < a then false
    else charListLe as bs

/-- The sort key comparison of `sorted(..., key=lambda instance:
instance["InstanceName"])`: compare instance display names as strings. -/
def nameLe (a b : TargetInstance) : Bool :=
  charListLe a.InstanceName.data b.InstanceName.data

/-- `sorted(targets_by_ip.values(), key=lambda instance: instance["InstanceName"])`:
stable ascending sort by instance display name (Python's `sorted` is the stable
ascending sort with respect to the key; `insertionSort` with the total preorder
`nameLe` computes exactly that sort). -/
def sortTargetInstances (tis : List TargetInstance) : List TargetInstance :=
  List.insertionSort (fun a b => nameLe a b = true) tis

/-- `_req_describe_targets` as a pure function of the gateway response:
topology checks, grouping, stable name sort; returns the aggregated instances
together with the listener id and the rule's location id. -/
def req_describe_targets (resp : DescribeTargetsResponse) :
    Except HelperError (List TargetInstance × String × String) :=
  match resp.Listeners with
  | none => .error .listenersNone
  | some listeners =>
    match listeners with
    | [listener] =>
      match listener.Rules with
      | none => .error .rulesNone
      | some rules =>
        match rules with
        | [rule] =>
            .ok (sortTargetInstances (aggregateTargets rule.Targets),
                 listener.ListenerId, rule.LocationId)
        | _ => .error (.rulesCount listeners.length)
    | _ => .error (.listenersCount listeners.length)

/-- A target entry of the mutation request (`Target()` with `InstanceId` and
`Port` set; the per-target `Weight` field is never set by the source). -/
structure MutTarget where
  InstanceId : String
  Port : Nat
deriving DecidableEq, Repr

/-- `RsWeightRule` as populated by the source: listener id, location id, the
rule-level weight applied to every listed target, and the target list. -/
structure RsWeightRule where
  ListenerId : String
  LocationId : String
  Weight : Nat
  Targets : List MutTarget
deriving DecidableEq, Repr

/-- `BatchModifyTargetWeightRequest` as populated by the source. -/
structure BatchModifyTargetWeightRequest where
  LoadBalancerId : String
  ModifyList : List RsWeightRule
deriving DecidableEq, Repr

/-- `_req_batch_modify_target_weight` (lines 180-207): build the mutation
request with one `RsWeightRule` whose targets are the given ports, all under
the single rule-level weight. -/
def req_batch_modify_target_weight (clb_id listener_id location_id instance_id : String)
    (ports : List Nat) (weight : Nat) : BatchModifyTargetWeightRequest :=
  { LoadBalancerId := clb_id,
    ModifyList := [{ ListenerId := listener_id, LocationId := location_id,
                     Weight := weight,
                     Targets := ports.map (fun port =>
                       { InstanceId := instance_id, Port := port }) }] }

/-- Observable effects of a run, in order: gateway queries, table renders,
the mutation call, console prints, and the settle sleep. -/
inductive Effect where
  | describeTargets : String → Effect
  | renderTable : String → List TargetInstance → Effect
  | batchModifyTargetWeight : BatchModifyTargetWeightRequest → Effect
  | printResp : String → String → Effect
  | print : String → Effect
  | sleep : Nat → Effect
deriving DecidableEq, Repr

/-- Whether an effect is the mutation call. -/
def Effect.isMutation : Effect → Bool
  | .batchModifyTargetWeight _ => true
  | _ => false

/-- The external world threaded through the stateful operations: `gw k` is the
response the gateway hands back to the k-th `DescribeTargets` call (0-based),
`ack` the opaque acknowledgement returned by `BatchModifyTargetWeight`,
`calls` the number of `DescribeTargets` calls made so far, and `trace` the
ordered effects performed so far. -/
structure World where
  gw : Nat → DescribeTargetsResponse
  ack : String
  calls : Nat
  trace : List Effect

/-- Perform one `DescribeTargets` gateway call. -/
def doDescribeTargets (w : World) (clb_id : String) : World × DescribeTargetsResponse :=
  ({ w with calls := w.calls + 1,
            trace := w.trace ++ [Effect.describeTargets clb_id] },
   w.gw w.calls)

/-- `list_clb_targets`: fetch and aggregate the targets, then render the table
(the per-row decoration of the presentation layer is not modelled; the render
effect records the aggregated instances). -/
def list_clb_targets (w : World) (clb_id : String) : World × Except HelperError Unit :=
  let p := doDescribeTargets w clb_id
  match req_describe_targets p.2 with
  | .error e => (p.1, .error e)
  | .ok (target_instances, _, _) =>
      ({ p.1 with trace := p.1.trace ++
          [Effect.renderTable ("CLB 「" ++ clb_id ++ "」 后端列表") target_instances] },
       .ok ())

/-- The drain-guard scan of `_change_clb_instance_weight` (lines 221-232):
`others_offline` is true exactly when every port of every instance whose
`InstanceId` differs from the target's has weight 0. -/
def othersOffline (target_instances : List TargetInstance) (instance_id : String) : Bool :=
  target_instances.all (fun inst =>
    inst.InstanceId == instance_id ||
    inst.Ports.all (fun port => port.2 == 0))

/-- `_change_clb_instance_weight` (lines 209-255): fresh fetch, drain guard for
weight 0, first-match lookup by instance id, then exactly one mutation request
followed by the two console prints.  The Python function returns `None`, so
the success value is `Unit`. -/
def change_clb_instance_weight (w : World) (clb_id instance_id : String) (weight : Nat) :
    World × Except HelperError Unit :=
  let p := doDescribeTargets w clb_id
  match req_describe_targets p.2 with
  | .error e => (p.1, .error e)
  | .ok (target_instances, listener_id, location_id) =>
    if weight = 0 ∧ othersOffline target_instances instance_id then
      (p.1, .error (.drainGuard clb_id instance_id))
    else
      match target_instances.find? (fun inst => inst.InstanceId == instance_id) with
      | none => (p.1, .error (.notFound clb_id instance_id))
      | some current_instance =>
          ({ p.1 with trace := p.1.trace ++
              [Effect.batchModifyTargetWeight
                 (req_batch_modify_target_weight clb_id listener_id location_id
                    instance_id (current_instance.Ports.map Prod.fst) weight),
               Effect.printResp "接口返回" p.1.ack,
               Effect.print "延时 3 秒等待生效..."] },
           .ok ())

/-- `online_clb_instance`: render, change to weight 10, sleep 3, render. -/
def online_clb_instance (w : World) (clb_id instance_id : String) :
    World × Except HelperError Unit :=
  let p₁ := list_clb_targets w clb_id
  match p₁.2 with
  | .error e => (p₁.1, .error e)
  | .ok _ =>
    let p₂ := change_clb_instance_weight p₁.1 clb_id instance_id 10
    match p₂.2 with
    | .error e => (p₂.1, .error e)
    | .ok _ =>
      let w' := { p₂.1 with trace := p₂.1.trace ++ [Effect.sleep 3] }
      list_clb_targets w' clb_id

/-- `offline_clb_instance`: render, change to weight 0, sleep 3, render. -/
def offline_clb_instance (w : World) (clb_id instance_id : String) :
    World × Except HelperError Unit :=
  let p₁ := list_clb_targets w clb_id
  match p₁.2 with
  | .error e => (p₁.1, .error e)
  | .ok _ =>
    let p₂ := change_clb_instance_weight p₁.1 clb_id instance_id 0
    match p₂.2 with
    | .error e => (p₂.1, .error e)
    | .ok _ =>
      let w' := { p₂.1 with trace := p₂.1.trace ++ [Effect.sleep 3] }
      list_clb_targets w' clb_id

/-! ### Helper lemmas about the sort -/

lemma charListLe_iff : ∀ x y : List Char, charListLe x y = true ↔ x ≤ y
  | [], [] => by simp [charListLe]
  | [], b :: bs => by
      simp only [charListLe, true_iff]
      exact le_of_lt (List.nil_lt_cons b bs)
  | a :: as, [] => by
      simp only [charListLe, Bool.false_eq_true, false_iff]
      intro h
      exact absurd (lt_of_lt_of_le (List.nil_lt_cons a as) h) (lt_irrefl _)
  | a :: as, b :: bs => by
      rcases lt_trichotomy a b with h | h | h
      · simp only [charListLe, if_pos h, true_iff]
        exact le_of_lt (List.Lex.rel h)
      · subst h
        simp only [charListLe, if_neg (lt_irrefl a), if_neg (lt_irrefl a)]
        rw [charListLe_iff as bs, ← not_lt, ← not_lt]
        exact not_congr (List.Lex.cons_iff).symm
      · simp only [charListLe, if_neg (not_lt_of_gt h), if_pos h, Bool.false_eq_true, false_iff]
        intro hle
        exact absurd (List.Lex.rel h) (not_lt_of_ge hle)

lemma nameLe_iff (a b : TargetInstance) :
    nameLe a b = true ↔ a.InstanceName ≤ b.InstanceName := by
  rw [String.le_iff_toList_le]
  exact charListLe_iff _ _

lemma nameLe_total : IsTotal TargetInstance (fun a b => nameLe a b = true) := by
  constructor
  intro a b
  rw [nameLe_iff, nameLe_iff]
  exact le_total _ _

lemma nameLe_trans : IsTrans TargetInstance (fun a b => nameLe a b = true) := by
  constructor
  intro a b c hab hbc
  rw [nameLe_iff] at hab hbc ⊢
  exact le_trans hab hbc

lemma sortTargetInstances_stable_filter (l : List TargetInstance) (n : String) :
    (sortTargetInstances l).filter (fun g => g.InstanceName == n)
      = l.filter (fun g => g.InstanceName == n) := by
  set p : TargetInstance → Bool := fun g => g.InstanceName == n with hp
  have hmem : ∀ g ∈ l.filter p, g.InstanceName = n := by
    intro g hg
    have := (List.mem_filter.mp hg).2
    simpa [hp] using this
  have hpair : (l.filter p).Pairwise (fun a b => nameLe a b = true) := by
    apply List.pairwise_of_forall_mem_list
    intro a ha b hb
    rw [nameLe_iff, hmem a ha, hmem b hb]
  have hsub : List.Sublist (l.filter p) (sortTargetInstances l) :=
    List.sublist_insertionSort hpair (List.filter_sublist l)
  have hsub2 : List.Sublist (l.filter p) ((sortTargetInstances l).filter p) := by
    have := hsub.filter p
    rwa [List.filter_filter,
      show ((fun g => p g && p g) = p) from funext (fun g => Bool.and_self _)] at this
  have hlen : ((sortTargetInstances l).filter p).length = (l.filter p).length :=
    ((List.perm_insertionSort _ l).filter p).length_eq
  exact (hsub2.eq_of_length hlen.symm).symm

lemma sortTargetInstances_sorted (l : List TargetInstance) :
    (sortTargetInstances l).Pairwise (fun a b => a.InstanceName ≤ b.InstanceName) := by
  haveI := nameLe_total
  haveI := nameLe_trans
  have h := List.sorted_insertionSort (fun a b => nameLe a b = true) l
  exact h.imp (fun hab => (nameLe_iff _ _).mp hab)

/-! ### Aggregation invariant -/

lemma appendPort_ip (t : RawTarget) (g : TargetInstance) :
    (appendPort t g).PrivateIpAddresses = g.PrivateIpAddresses := by
  rw [appendPort]; split <;> rfl

lemma appendPort_instanceId (t : RawTarget) (g : TargetInstance) :
    (appendPort t g).InstanceId = g.InstanceId := by
  rw [appendPort]; split <;> rfl

lemma appendPort_instanceName (t : RawTarget) (g : TargetInstance) :
    (appendPort t g).InstanceName = g.InstanceName := by
  rw [appendPort]; split <;> rfl

lemma appendPort_ports_pos (t : RawTarget) (g : TargetInstance)
    (h : g.PrivateIpAddresses = t.firstIp) :
    (appendPort t g).Ports = g.Ports ++ [(t.Port, t.Weight)] := by
  rw [appendPort, if_pos (beq_iff_eq.mpr h)]

lemma appendPort_of_ne (t : RawTarget) (g : TargetInstance)
    (h : g.PrivateIpAddresses ≠ t.firstIp) :
    appendPort t g = g := by
  rw [appendPort, if_neg]
  intro hc
  exact h (beq_iff_eq.mp hc)

def AggInv (processed : List RawTarget) (acc : List TargetInstance) : Prop :=
  (acc.map TargetInstance.PrivateIpAddresses).Nodup ∧
  (∀ x, x ∈ acc.map TargetInstance.PrivateIpAddresses ↔ x ∈ processed.map RawTarget.firstIp) ∧
  (∀ g ∈ acc, g.Ports =
    (processed.filter (fun t => t.firstIp == g.PrivateIpAddresses)).map
      (fun t => (t.Port, t.Weight))) ∧
  (∀ g ∈ acc, ∃ t₀,
    processed.find? (fun t => t.firstIp == g.PrivateIpAddresses) = some t₀ ∧
    g.InstanceId = t₀.InstanceId ∧ g.InstanceName = t₀.InstanceName)

lemma aggInv_step (processed : List RawTarget) (acc : List TargetInstance) (t : RawTarget)
    (h : AggInv processed acc) : AggInv (processed ++ [t]) (insertTarget acc t) := by
  obtain ⟨h1, h2, h3, h4⟩ := h
  by_cases hmem : acc.any (fun g => g.PrivateIpAddresses == t.firstIp) = true
  · -- the first private IP is already a key: append the port pair to that group
    rw [insertTarget, if_pos hmem]
    have hip : (acc.map (appendPort t)).map TargetInstance.PrivateIpAddresses
        = acc.map TargetInstance.PrivateIpAddresses := by
      rw [List.map_map]
      apply List.map_congr_left
      intro g _
      exact appendPort_ip t g
    have hmem' : t.firstIp ∈ acc.map TargetInstance.PrivateIpAddresses := by
      obtain ⟨g, hg, hgc⟩ := List.any_eq_true.mp hmem
      exact List.mem_map.mpr ⟨g, hg, (beq_iff_eq.mp hgc)⟩
    refine ⟨?_, ?_, ?_, ?_⟩
    · rw [hip]; exact h1
    · intro x
      rw [hip, List.map_append]
      simp only [List.map_cons, List.map_nil, List.mem_append, List.mem_singleton]
      constructor
      · intro hx; exact Or.inl ((h2 x).mp hx)
      · rintro (hx | hx)
        · exact (h2 x).mpr hx
        · subst hx; exact hmem'
    · intro g' hg'
      obtain ⟨g, hg, rfl⟩ := List.mem_map.mp hg'
      rw [appendPort_ip]
      by_cases hc : g.PrivateIpAddresses = t.firstIp
      · have hpt : (t.firstIp == g.PrivateIpAddresses) = true := beq_iff_eq.mpr hc.symm
        rw [appendPort_ports_pos t g hc, List.filter_append, List.map_append, h3 g hg]
        simp [hpt]
      · have hpt : (t.firstIp == g.PrivateIpAddresses) = false :=
          beq_eq_false_iff_ne.mpr (fun he => hc he.symm)
        rw [appendPort_of_ne t g hc, List.filter_append, List.map_append, h3 g hg]
        simp [hpt]
    · intro g' hg'
      obtain ⟨g, hg, rfl⟩ := List.mem_map.mp hg'
      obtain ⟨t₀, hf, hid, hn⟩ := h4 g hg
      refine ⟨t₀, ?_, ?_, ?_⟩
      · rw [appendPort_ip, List.find?_append, hf]; rfl
      · rw [appendPort_instanceId]; exact hid
      · rw [appendPort_instanceName]; exact hn
  · -- new first private IP: create a new group at the end
    rw [insertTarget, if_neg hmem]
    have hnot : ∀ g ∈ acc, g.PrivateIpAddresses ≠ t.firstIp := by
      intro g hg he
      exact hmem (List.any_eq_true.mpr ⟨g, hg, beq_iff_eq.mpr he⟩)
    have hnotp : t.firstIp ∉ processed.map RawTarget.firstIp := by
      intro hx
      obtain ⟨g, hg, hge⟩ := List.mem_map.mp ((h2 t.firstIp).mpr hx)
      exact hnot g hg hge
    have hfilnil : processed.filter (fun t' => t'.firstIp == t.firstIp) = [] := by
      rw [List.filter_eq_nil_iff]
      intro a ha hpa
      exact hnotp (List.mem_map.mpr ⟨a, ha, beq_iff_eq.mp hpa⟩)
    have hfindnone : processed.find? (fun t' => t'.firstIp == t.firstIp) = none := by
      rw [List.find?_eq_none]
      intro a ha hpa
      exact hnotp (List.mem_map.mpr ⟨a, ha, beq_iff_eq.mp hpa⟩)
    refine ⟨?_, ?_, ?_, ?_⟩
    · rw [List.map_append]
      simp only [List.map_cons, List.map_nil]
      rw [List.nodup_append]
      refine ⟨h1, List.nodup_singleton _, ?_⟩
      intro x hx hx2
      simp only [List.mem_singleton] at hx2
      subst hx2
      obtain ⟨g, hg, hge⟩ := List.mem_map.mp hx
      exact hnot g hg hge
    · intro x
      rw [List.map_append, List.map_append]
      simp only [List.map_cons, List.map_nil, List.mem_append, List.mem_singleton]
      exact or_congr (h2 x) Iff.rfl
    · intro g hg
      rcases List.mem_append.mp hg with hga | hgn
      · have hne : (t.firstIp == g.PrivateIpAddresses) = false :=
          beq_eq_false_iff_ne.mpr (fun he => hnot g hga he.symm)
        rw [List.filter_append, List.map_append, h3 g hga]
        simp [hne]
      · simp only [List.mem_singleton] at hgn
        subst hgn
        rw [List.filter_append]
        simp only [newGroup, hfilnil]
        simp
    · intro g hg
      rcases List.mem_append.mp hg with hga | hgn
      · obtain ⟨t₀, hf, hid, hn⟩ := h4 g hga
        exact ⟨t₀, by rw [List.find?_append, hf]; rfl, hid, hn⟩
      · simp only [List.mem_singleton] at hgn
        subst hgn
        refine ⟨t, ?_, rfl, rfl⟩
        simp only [newGroup, List.find?_append, hfindnone]
        simp

lemma aggInv_foldl : ∀ (ts processed : List RawTarget) (acc : List TargetInstance),
    AggInv processed acc → AggInv (processed ++ ts) (ts.foldl insertTarget acc)
  | [], processed, acc, h => by simpa using h
  | t :: ts, processed, acc, h => by
      have h' := aggInv_step processed acc t h
      have h2 := aggInv_foldl ts (processed ++ [t]) (insertTarget acc t) h'
      simpa [List.append_assoc] using h2

lemma aggInv_aggregateTargets (ts : List RawTarget) : AggInv ts (aggregateTargets ts) := by
  have h0 : AggInv [] ([] : List TargetInstance) := by
    refine ⟨List.nodup_nil, ?_, ?_, ?_⟩ <;> simp
  have h := aggInv_foldl ts [] [] h0
  simpa [aggregateTargets] using h

/-! ### Unfolding lemmas for the stateful operations -/

lemma list_clb_targets_ok (w : World) (clb_id : String)
    (tis : List TargetInstance) (lid loc : String)
    (hparse : req_describe_targets (w.gw w.calls) = .ok (tis, lid, loc)) :
    list_clb_targets w clb_id
      = ({ w with
           calls := w.calls + 1,
           trace := w.trace ++
             [Effect.describeTargets clb_id,
              Effect.renderTable ("CLB 「" ++ clb_id ++ "」 后端列表") tis] }, .ok ()) := by
  simp [list_clb_targets, doDescribeTargets, hparse]

lemma change_parse_error (w : World) (clb_id instance_id : String) (weight : Nat)
    (e : HelperError)
    (hparse : req_describe_targets (w.gw w.calls) = .error e) :
    change_clb_instance_weight w clb_id instance_id weight
      = ({ w with
           calls := w.calls + 1,
           trace := w.trace ++ [Effect.describeTargets clb_id] }, .error e) := by
  simp [change_clb_instance_weight, doDescribeTargets, hparse]

lemma change_drain_guard (w : World) (clb_id instance_id : String)
    (tis : List TargetInstance) (lid loc : String)
    (hparse : req_describe_targets (w.gw w.calls) = .ok (tis, lid, loc))
    (ho : othersOffline tis instance_id = true) :
    change_clb_instance_weight w clb_id instance_id 0
      = ({ w with
           calls := w.calls + 1,
           trace := w.trace ++ [Effect.describeTargets clb_id] },
         .error (.drainGuard clb_id instance_id)) := by
  simp [change_clb_instance_weight, doDescribeTargets, hparse, ho]

lemma change_not_found (w : World) (clb_id instance_id : String) (weight : Nat)
    (tis : List TargetInstance) (lid loc : String)
    (hparse : req_describe_targets (w.gw w.calls) = .ok (tis, lid, loc))
    (hguard : ¬ (weight = 0 ∧ othersOffline tis instance_id = true))
    (hfind : tis.find? (fun inst => inst.InstanceId == instance_id) = none) :
    change_clb_instance_weight w clb_id instance_id weight
      = ({ w with
           calls := w.calls + 1,
           trace := w.trace ++ [Effect.describeTargets clb_id] },
         .error (.notFound clb_id instance_id)) := by
  simp [change_clb_instance_weight, doDescribeTargets, hparse, hguard, hfind]

lemma change_success (w : World) (clb_id instance_id : String) (weight : Nat)
    (tis : List TargetInstance) (lid loc : String) (cur : TargetInstance)
    (hparse : req_describe_targets (w.gw w.calls) = .ok (tis, lid, loc))
    (hguard : ¬ (weight = 0 ∧ othersOffline tis instance_id = true))
    (hfind : tis.find? (fun inst => inst.InstanceId == instance_id) = some cur) :
    change_clb_instance_weight w clb_id instance_id weight
      = ({ w with
           calls := w.calls + 1,
           trace := w.trace ++
             [Effect.describeTargets clb_id,
              Effect.batchModifyTargetWeight
                (req_batch_modify_target_weight clb_id lid loc instance_id
                  (cur.Ports.map Prod.fst) weight),
              Effect.printResp "接口返回" w.ack,
              Effect.print "延时 3 秒等待生效..."] }, .ok ()) := by
  simp [change_clb_instance_weight, doDescribeTargets, hparse, hguard, hfind]

/-! ### Concrete fixtures for witnesses and counterexamples -/

/-- A single-listener / single-rule `DescribeTargets` response with the given
raw targets. -/
def mkResp (ts : List RawTarget) : DescribeTargetsResponse :=
  { Listeners := some
      [{ ListenerId := "lbl-1"
         Rules := some [{ LocationId := "loc-1", Targets := ts }] }] }

def rawA80 : RawTarget :=
  { InstanceId := "i-a", InstanceName := "a",
    PrivateIpAddresses := ["10.0.0.1"], Port := 80, Weight := 10 }

def rawA443 : RawTarget :=
  { InstanceId := "i-a", InstanceName := "a",
    PrivateIpAddresses := ["10.0.0.1"], Port := 443, Weight := 10 }

def rawB80 : RawTarget :=
  { InstanceId := "i-b", InstanceName := "b",
    PrivateIpAddresses := ["10.0.0.2"], Port := 80, Weight := 10 }

def rawB443 : RawTarget :=
  { InstanceId := "i-b", InstanceName := "b",
    PrivateIpAddresses := ["10.0.0.2"], Port := 443, Weight := 0 }

def instA : TargetInstance :=
  { InstanceId := "i-a", InstanceName := "a",
    PrivateIpAddresses := "10.0.0.1", Ports := [(80, 10), (443, 10)] }

def instB : TargetInstance :=
  { InstanceId := "i-b", InstanceName := "b",
    PrivateIpAddresses := "10.0.0.2", Ports := [(80, 10), (443, 0)] }

def wStd : World :=
  { gw := fun _ => mkResp [rawA80, rawA443, rawB80, rawB443],
    ack := "ACK-1", calls := 0, trace := [] }

end CLBHelper





namespace CLBHelper

/-! ### Additional fixtures -/

def rawA80z : RawTarget :=
  { InstanceId := "i-a", InstanceName := "a",
    PrivateIpAddresses := ["10.0.0.1"], Port := 80, Weight := 0 }

def rawA443z : RawTarget :=
  { InstanceId := "i-a", InstanceName := "a",
    PrivateIpAddresses := ["10.0.0.1"], Port := 443, Weight := 0 }

def instA0 : TargetInstance :=
  { InstanceId := "i-a", InstanceName := "a",
    PrivateIpAddresses := "10.0.0.1", Ports := [(80, 0), (443, 0)] }

def wGuard : World :=
  { gw := fun _ => mkResp [rawA80z, rawA443z, rawB80, rawB443],
    ack := "ACK-1", calls := 0, trace := [] }

/-! ### C1 -/

/-- C1: for a drain request (desired weight 0) on a fresh snapshot, the
changer raises the drain-guard error and performs no mutation call if and
only if every port of every instance other than those bearing the target
instance identifier has weight 0 (`othersOffline`); when the guard fires the
whole effect of the call is the single fresh fetch, and when some other
instance retains a non-zero-weight port the guard error is never raised. -/
theorem c1_drain_guard_iff (w : World) (clb_id instance_id : String)
    (tis : List TargetInstance) (lid loc : String)
    (hparse : req_describe_targets (w.gw w.calls) = .ok (tis, lid, loc)) :
    (((change_clb_instance_weight w clb_id instance_id 0).2
        = .error (.drainGuard clb_id instance_id) ∧
      ((change_clb_instance_weight w clb_id instance_id 0).1.trace.filter Effect.isMutation)
        = w.trace.filter Effect.isMutation)
      ↔ othersOffline tis instance_id = true) ∧
    (othersOffline tis instance_id = true →
      (change_clb_instance_weight w clb_id instance_id 0).1.trace
        = w.trace ++ [Effect.describeTargets clb_id]) ∧
    (othersOffline tis instance_id = false →
      (change_clb_instance_weight w clb_id instance_id 0).2
        ≠ .error (.drainGuard clb_id instance_id)) := by
  by_cases ho : othersOffline tis instance_id = true
  · rw [change_drain_guard w clb_id instance_id tis lid loc hparse ho]
    refine ⟨?_, fun _ => rfl, fun hc => by rw [ho] at hc; exact absurd hc (by simp)⟩
    simp [ho, Effect.isMutation, List.filter_append]
  · have hguard : ¬ (0 = 0 ∧ othersOffline tis instance_id = true) := fun h => ho h.2
    have hne : (change_clb_instance_weight w clb_id instance_id 0).2
        ≠ .error (.drainGuard clb_id instance_id) := by
      cases hfind : tis.find? (fun inst => inst.InstanceId == instance_id) with
      | none =>
          rw [change_not_found w clb_id instance_id 0 tis lid loc hparse hguard hfind]
          simp
      | some cur =>
          rw [change_success w clb_id instance_id 0 tis lid loc cur hparse hguard hfind]
          simp
    refine ⟨?_, fun h => absurd h ho, fun _ => hne⟩
    constructor
    · rintro ⟨he, -⟩
      exact absurd he hne
    · intro h
      exact absurd h ho

/-- Witness for C1 at a concrete input: instance A has ports all at weight 0
and B has a port at weight 10; draining B is rejected by the guard with no
mutation performed. -/
theorem c1_drain_guard_iff_witness :
    req_describe_targets (wGuard.gw wGuard.calls) = .ok ([instA0, instB], "lbl-1", "loc-1") ∧
    ((((change_clb_instance_weight wGuard "lb-1" "i-b" 0).2
        = .error (.drainGuard "lb-1" "i-b") ∧
      ((change_clb_instance_weight wGuard "lb-1" "i-b" 0).1.trace.filter Effect.isMutation)
        = wGuard.trace.filter Effect.isMutation)
      ↔ othersOffline [instA0, instB] "i-b" = true) ∧
    (othersOffline [instA0, instB] "i-b" = true →
      (change_clb_instance_weight wGuard "lb-1" "i-b" 0).1.trace
        = wGuard.trace ++ [Effect.describeTargets "lb-1"]) ∧
    (othersOffline [instA0, instB] "i-b" = false →
      (change_clb_instance_weight wGuard "lb-1" "i-b" 0).2
        ≠ .error (.drainGuard "lb-1" "i-b"))) :=
  ⟨by rfl, c1_drain_guard_iff wGuard "lb-1" "i-b" [instA0, instB] "lbl-1" "loc-1" (by rfl)⟩

end CLBHelper

namespace CLBHelper

/-! ### C2 -/

/-- C2: when the guard and the lookup pass, exactly one mutation call is
issued, and its target list is exactly the ports recorded for the located
instance, every one under the single rule-level desired weight; no hypothesis
constrains the instance's current weights (no no-op special case). -/
theorem c2_single_full_mutation (w : World) (clb_id instance_id : String) (weight : Nat)
    (tis : List TargetInstance) (lid loc : String) (cur : TargetInstance)
    (hparse : req_describe_targets (w.gw w.calls) = .ok (tis, lid, loc))
    (hguard : ¬ (weight = 0 ∧ othersOffline tis instance_id = true))
    (hfind : tis.find? (fun inst => inst.InstanceId == instance_id) = some cur) :
    (change_clb_instance_weight w clb_id instance_id weight).2 = .ok () ∧
    (change_clb_instance_weight w clb_id instance_id weight).1.trace
      = w.trace ++
        [Effect.describeTargets clb_id,
         Effect.batchModifyTargetWeight
           { LoadBalancerId := clb_id
             ModifyList := [{ ListenerId := lid, LocationId := loc, Weight := weight,
                              Targets := cur.Ports.map
                                (fun p => { InstanceId := instance_id, Port := p.1 }) }] },
         Effect.printResp "接口返回" w.ack,
         Effect.print "延时 3 秒等待生效..."] ∧
    ((change_clb_instance_weight w clb_id instance_id weight).1.trace.filter
        Effect.isMutation).length = (w.trace.filter Effect.isMutation).length + 1 := by
  rw [change_success w clb_id instance_id weight tis lid loc cur hparse hguard hfind]
  refine ⟨rfl, ?_, ?_⟩
  · simp only [req_batch_modify_target_weight, List.map_map]
    rfl
  · simp [Effect.isMutation, List.filter_append]

/-- Witness for C2 at a concrete input exercising idempotence: instance A is
already at weight 10 on both ports and is set to weight 10 again; the same
full mutation is issued. -/
theorem c2_single_full_mutation_witness :
    req_describe_targets (wStd.gw wStd.calls) = .ok ([instA, instB], "lbl-1", "loc-1") ∧
    ¬ ((10 : Nat) = 0 ∧ othersOffline [instA, instB] "i-a" = true) ∧
    [instA, instB].find? (fun inst => inst.InstanceId == "i-a") = some instA ∧
    ((change_clb_instance_weight wStd "lb-1" "i-a" 10).2 = .ok () ∧
    (change_clb_instance_weight wStd "lb-1" "i-a" 10).1.trace
      = wStd.trace ++
        [Effect.describeTargets "lb-1",
         Effect.batchModifyTargetWeight
           { LoadBalancerId := "lb-1"
             ModifyList := [{ ListenerId := "lbl-1", LocationId := "loc-1", Weight := 10,
                              Targets := instA.Ports.map
                                (fun p => { InstanceId := "i-a", Port := p.1 }) }] },
         Effect.printResp "接口返回" wStd.ack,
         Effect.print "延时 3 秒等待生效..."] ∧
    ((change_clb_instance_weight wStd "lb-1" "i-a" 10).1.trace.filter
        Effect.isMutation).length = (wStd.trace.filter Effect.isMutation).length + 1) :=
  ⟨by rfl, by decide, by rfl,
   c2_single_full_mutation wStd "lb-1" "i-a" 10 [instA, instB] "lbl-1" "loc-1" instA
     (by rfl) (by decide) (by rfl)⟩

/-! ### C5 -/

/-- C5 (amended): when the requested instance identifier matches no instance
in the fresh snapshot, the changer raises an error and issues no mutation
call; the error is the not-found error provided the drain guard does not fire
first, and it is the drain-guard error exactly in the guard case (weight 0
with every port of every instance at weight 0, since no instance bears the
target identifier). -/
theorem c5_not_found_amended (w : World) (clb_id instance_id : String) (weight : Nat)
    (tis : List TargetInstance) (lid loc : String)
    (hparse : req_describe_targets (w.gw w.calls) = .ok (tis, lid, loc))
    (hfind : tis.find? (fun inst => inst.InstanceId == instance_id) = none) :
    (∃ e, (change_clb_instance_weight w clb_id instance_id weight).2 = .error e) ∧
    (change_clb_instance_weight w clb_id instance_id weight).1.trace
      = w.trace ++ [Effect.describeTargets clb_id] ∧
    (¬ (weight = 0 ∧ othersOffline tis instance_id = true) →
      (change_clb_instance_weight w clb_id instance_id weight).2
        = .error (.notFound clb_id instance_id)) ∧
    (weight = 0 ∧ othersOffline tis instance_id = true →
      (change_clb_instance_weight w clb_id instance_id weight).2
        = .error (.drainGuard clb_id instance_id)) := by
  by_cases hg : weight = 0 ∧ othersOffline tis instance_id = true
  · obtain ⟨h0, ho⟩ := hg
    subst h0
    rw [change_drain_guard w clb_id instance_id tis lid loc hparse ho]
    exact ⟨⟨_, rfl⟩, rfl, fun hc => absurd ⟨rfl, ho⟩ hc, fun _ => rfl⟩
  · rw [change_not_found w clb_id instance_id weight tis lid loc hparse hg hfind]
    exact ⟨⟨_, rfl⟩, rfl, fun _ => rfl, fun hc => absurd hc hg⟩

def rawZ : RawTarget :=
  { InstanceId := "i-a", InstanceName := "a",
    PrivateIpAddresses := ["10.0.0.1"], Port := 80, Weight := 0 }

def instZ : TargetInstance :=
  { InstanceId := "i-a", InstanceName := "a",
    PrivateIpAddresses := "10.0.0.1", Ports := [(80, 0)] }

def wZero : World :=
  { gw := fun _ => mkResp [rawZ], ack := "ACK-1", calls := 0, trace := [] }

/-- Counterexample for C5 as stated: the snapshot contains only instance
`i-a` whose single port has weight 0, and a drain (weight 0) is requested for
the absent identifier `i-x`; the changer raises the drain-guard error, not
the not-found error the claim promises. -/
theorem c5_counterexample :
    req_describe_targets (wZero.gw wZero.calls) = .ok ([instZ], "lbl-1", "loc-1") ∧
    [instZ].find? (fun inst => inst.InstanceId == "i-x") = none ∧
    (change_clb_instance_weight wZero "lb-1" "i-x" 0).2
      = .error (.drainGuard "lb-1" "i-x") ∧
    (change_clb_instance_weight wZero "lb-1" "i-x" 0).2
      ≠ .error (.notFound "lb-1" "i-x") := by
  refine ⟨by rfl, by rfl, by rfl, ?_⟩
  intro h
  rw [show (change_clb_instance_weight wZero "lb-1" "i-x" 0).2
      = .error (.drainGuard "lb-1" "i-x") from rfl] at h
  simp at h

/-- Witness for C5 (amended) at a concrete input: requesting weight 10 for an
identifier absent from the standard snapshot yields the not-found error and
no mutation. -/
theorem c5_not_found_amended_witness :
    req_describe_targets (wStd.gw wStd.calls) = .ok ([instA, instB], "lbl-1", "loc-1") ∧
    [instA, instB].find? (fun inst => inst.InstanceId == "i-x") = none ∧
    ((∃ e, (change_clb_instance_weight wStd "lb-1" "i-x" 10).2 = .error e) ∧
    (change_clb_instance_weight wStd "lb-1" "i-x" 10).1.trace
      = wStd.trace ++ [Effect.describeTargets "lb-1"] ∧
    (¬ ((10 : Nat) = 0 ∧ othersOffline [instA, instB] "i-x" = true) →
      (change_clb_instance_weight wStd "lb-1" "i-x" 10).2
        = .error (.notFound "lb-1" "i-x")) ∧
    ((10 : Nat) = 0 ∧ othersOffline [instA, instB] "i-x" = true →
      (change_clb_instance_weight wStd "lb-1" "i-x" 10).2
        = .error (.drainGuard "lb-1" "i-x"))) :=
  ⟨by rfl, by rfl,
   c5_not_found_amended wStd "lb-1" "i-x" 10 [instA, instB] "lbl-1" "loc-1"
     (by rfl) (by rfl)⟩

end CLBHelper

namespace CLBHelper

/-! ### C10 -/

/-- C10: when the snapshot contains several instances bearing the requested
identifier, the changer uses only the first match in the name-sorted snapshot
order (`pre` holds no match, `cur` is the first match), and the single
mutation call lists exactly `cur`'s ports — ports of later same-identifier
instances (`post`) do not appear. -/
theorem c10_first_match_only (w : World) (clb_id instance_id : String) (weight : Nat)
    (pre post : List TargetInstance) (cur : TargetInstance) (lid loc : String)
    (hparse : req_describe_targets (w.gw w.calls) = .ok (pre ++ cur :: post, lid, loc))
    (hpre : ∀ g ∈ pre, g.InstanceId ≠ instance_id)
    (hcur : cur.InstanceId = instance_id)
    (hguard : ¬ (weight = 0 ∧ othersOffline (pre ++ cur :: post) instance_id = true)) :
    (change_clb_instance_weight w clb_id instance_id weight).2 = .ok () ∧
    (change_clb_instance_weight w clb_id instance_id weight).1.trace
      = w.trace ++
        [Effect.describeTargets clb_id,
         Effect.batchModifyTargetWeight
           (req_batch_modify_target_weight clb_id lid loc instance_id
             (cur.Ports.map Prod.fst) weight),
         Effect.printResp "接口返回" w.ack,
         Effect.print "延时 3 秒等待生效..."] := by
  have hfind : (pre ++ cur :: post).find? (fun inst => inst.InstanceId == instance_id)
      = some cur := by
    rw [List.find?_append]
    have hpn : pre.find? (fun inst => inst.InstanceId == instance_id) = none := by
      rw [List.find?_eq_none]
      intro g hg hbe
      exact hpre g hg (beq_iff_eq.mp hbe)
    rw [hpn]
    simp [hcur]
  rw [change_success w clb_id instance_id weight (pre ++ cur :: post) lid loc cur
    hparse hguard hfind]
  exact ⟨rfl, rfl⟩

def rawP : RawTarget :=
  { InstanceId := "i-2", InstanceName := "a",
    PrivateIpAddresses := ["10.0.0.1"], Port := 80, Weight := 10 }

def rawQ : RawTarget :=
  { InstanceId := "i-1", InstanceName := "b",
    PrivateIpAddresses := ["10.0.0.2"], Port := 81, Weight := 10 }

def rawR : RawTarget :=
  { InstanceId := "i-1", InstanceName := "c",
    PrivateIpAddresses := ["10.0.0.3"], Port := 8080, Weight := 10 }

def instP : TargetInstance :=
  { InstanceId := "i-2", InstanceName := "a",
    PrivateIpAddresses := "10.0.0.1", Ports := [(80, 10)] }

def instQ : TargetInstance :=
  { InstanceId := "i-1", InstanceName := "b",
    PrivateIpAddresses := "10.0.0.2", Ports := [(81, 10)] }

def instR : TargetInstance :=
  { InstanceId := "i-1", InstanceName := "c",
    PrivateIpAddresses := "10.0.0.3", Ports := [(8080, 10)] }

def wDup : World :=
  { gw := fun _ => mkResp [rawP, rawQ, rawR], ack := "ACK-1", calls := 0, trace := [] }

/-- Witness for C10 at a concrete input: instances `b` (port 81) and `c`
(port 8080) both bear identifier `i-1`; the mutation issued for `i-1` at
weight 10 lists only port 81 of the first match `b`. -/
theorem c10_first_match_only_witness :
    req_describe_targets (wDup.gw wDup.calls)
      = .ok ([instP] ++ instQ :: [instR], "lbl-1", "loc-1") ∧
    (∀ g ∈ [instP], g.InstanceId ≠ "i-1") ∧
    instQ.InstanceId = "i-1" ∧
    ((change_clb_instance_weight wDup "lb-1" "i-1" 10).2 = .ok () ∧
    (change_clb_instance_weight wDup "lb-1" "i-1" 10).1.trace
      = wDup.trace ++
        [Effect.describeTargets "lb-1",
         Effect.batchModifyTargetWeight
           (req_batch_modify_target_weight "lb-1" "lbl-1" "loc-1" "i-1"
             (instQ.Ports.map Prod.fst) 10),
         Effect.printResp "接口返回" wDup.ack,
         Effect.print "延时 3 秒等待生效..."]) :=
  ⟨by rfl, by decide, by rfl,
   c10_first_match_only wDup "lb-1" "i-1" 10 [instP] [instR] instQ "lbl-1" "loc-1"
     (by rfl) (by decide) (by rfl) (by decide)⟩

/-! ### C7 -/

def wAck2 : World :=
  { gw := fun _ => mkResp [rawA80, rawA443, rawB80, rawB443],
    ack := "ACK-2", calls := 0, trace := [] }

/-- Counterexample for C7 as stated: two runs against gateways that answer
with different acknowledgements return the same value `()` to the caller —
the changer's Python body ends after two prints and returns `None`, so the
gateway's raw acknowledgement is not returned. -/
theorem c7_counterexample :
    (change_clb_instance_weight wStd "lb-1" "i-a" 10).2
      = (change_clb_instance_weight wAck2 "lb-1" "i-a" 10).2 ∧
    (change_clb_instance_weight wStd "lb-1" "i-a" 10).2 = .ok () ∧
    wStd.ack ≠ wAck2.ack :=
  ⟨by rfl, by rfl, by decide⟩

/-- C7 (amended): for every successful weight change the changer prints the
gateway's raw acknowledgement of the mutation call to the console and returns
`()` (no value) to its caller. -/
theorem c7_prints_ack_returns_unit (w : World) (clb_id instance_id : String) (weight : Nat)
    (tis : List TargetInstance) (lid loc : String) (cur : TargetInstance)
    (hparse : req_describe_targets (w.gw w.calls) = .ok (tis, lid, loc))
    (hguard : ¬ (weight = 0 ∧ othersOffline tis instance_id = true))
    (hfind : tis.find? (fun inst => inst.InstanceId == instance_id) = some cur) :
    (change_clb_instance_weight w clb_id instance_id weight).2 = .ok () ∧
    Effect.printResp "接口返回" w.ack
      ∈ (change_clb_instance_weight w clb_id instance_id weight).1.trace := by
  rw [change_success w clb_id instance_id weight tis lid loc cur hparse hguard hfind]
  exact ⟨rfl, by simp⟩

/-- Witness for C7 (amended) at a concrete input. -/
theorem c7_prints_ack_returns_unit_witness :
    req_describe_targets (wStd.gw wStd.calls) = .ok ([instA, instB], "lbl-1", "loc-1") ∧
    ((change_clb_instance_weight wStd "lb-1" "i-b" 10).2 = .ok () ∧
    Effect.printResp "接口返回" wStd.ack
      ∈ (change_clb_instance_weight wStd "lb-1" "i-b" 10).1.trace) :=
  ⟨by rfl,
   c7_prints_ack_returns_unit wStd "lb-1" "i-b" 10 [instA, instB] "lbl-1" "loc-1" instB
     (by rfl) (by decide) (by rfl)⟩

end CLBHelper

namespace CLBHelper

/-! ### C3 -/

/-- C3: aggregation produces exactly one group per distinct first private IP
appearing in the raw list (the group IPs are exactly the distinct first IPs,
with no duplicates), and each group's Ports sequence is exactly the
(port, weight) pairs of the raw records bearing that first IP, in gateway
order; the grouping never consults instance identifier or name. -/
theorem c3_grouping_by_first_ip (ts : List RawTarget)
    (_hne : ∀ t ∈ ts, t.PrivateIpAddresses ≠ []) :
    ((aggregateTargets ts).map TargetInstance.PrivateIpAddresses).Nodup ∧
    (∀ ip, ip ∈ (aggregateTargets ts).map TargetInstance.PrivateIpAddresses ↔
        ip ∈ ts.map RawTarget.firstIp) ∧
    (∀ g ∈ aggregateTargets ts, g.Ports =
        (ts.filter (fun t => t.firstIp == g.PrivateIpAddresses)).map
          (fun t => (t.Port, t.Weight))) := by
  obtain ⟨h1, h2, h3, -⟩ := aggInv_aggregateTargets ts
  exact ⟨h1, h2, h3⟩

/-- Witness for C3 at a concrete input: records of instance A (ip 10.0.0.1)
surround a record of B (ip 10.0.0.2); aggregation yields one group per IP
with A's two ports merged in gateway order. -/
theorem c3_grouping_by_first_ip_witness :
    (∀ t ∈ [rawA80, rawB80, rawA443], t.PrivateIpAddresses ≠ []) ∧
    (((aggregateTargets [rawA80, rawB80, rawA443]).map
        TargetInstance.PrivateIpAddresses).Nodup ∧
    (∀ ip, ip ∈ (aggregateTargets [rawA80, rawB80, rawA443]).map
        TargetInstance.PrivateIpAddresses ↔
        ip ∈ [rawA80, rawB80, rawA443].map RawTarget.firstIp) ∧
    (∀ g ∈ aggregateTargets [rawA80, rawB80, rawA443], g.Ports =
        ([rawA80, rawB80, rawA443].filter
          (fun t => t.firstIp == g.PrivateIpAddresses)).map
          (fun t => (t.Port, t.Weight)))) ∧
    aggregateTargets [rawA80, rawB80, rawA443]
      = [{ InstanceId := "i-a", InstanceName := "a", PrivateIpAddresses := "10.0.0.1",
           Ports := [(80, 10), (443, 10)] },
         { InstanceId := "i-b", InstanceName := "b", PrivateIpAddresses := "10.0.0.2",
           Ports := [(80, 10)] }] :=
  ⟨by decide, c3_grouping_by_first_ip [rawA80, rawB80, rawA443] (by decide), by rfl⟩

/-! ### C4 -/

/-- C4: for every raw target list the aggregated output is sorted ascending
by instance display name under the (case-sensitive) string order, and the
sort is stable: for every name, the instances bearing it appear in the same
relative order as their groups were created (first appearance in the input). -/
theorem c4_sorted_by_name_stable (ts : List RawTarget) :
    (sortTargetInstances (aggregateTargets ts)).Pairwise
      (fun a b => a.InstanceName ≤ b.InstanceName) ∧
    ∀ n : String,
      (sortTargetInstances (aggregateTargets ts)).filter (fun g => g.InstanceName == n)
        = (aggregateTargets ts).filter (fun g => g.InstanceName == n) :=
  ⟨sortTargetInstances_sorted _, fun n => sortTargetInstances_stable_filter _ n⟩

/-! ### C9 -/

/-- C9: each aggregated group carries the instance identifier and display
name of the first raw record (in gateway order) bearing the group's first
private IP; metadata of later records in the group is discarded. -/
theorem c9_metadata_from_first_record (ts : List RawTarget)
    (_hne : ∀ t ∈ ts, t.PrivateIpAddresses ≠ []) :
    ∀ g ∈ aggregateTargets ts, ∃ t₀,
      ts.find? (fun t => t.firstIp == g.PrivateIpAddresses) = some t₀ ∧
      g.InstanceId = t₀.InstanceId ∧ g.InstanceName = t₀.InstanceName :=
  (aggInv_aggregateTargets ts).2.2.2

def rawM1 : RawTarget :=
  { InstanceId := "i-1", InstanceName := "n1",
    PrivateIpAddresses := ["10.0.0.9"], Port := 80, Weight := 10 }

def rawM2 : RawTarget :=
  { InstanceId := "i-2", InstanceName := "n2",
    PrivateIpAddresses := ["10.0.0.9"], Port := 443, Weight := 0 }

/-- Witness for C9 at a concrete input: two records share first IP 10.0.0.9
with different identifiers and names; the single aggregated group carries the
first record's metadata (`i-1`, `n1`) and both ports. -/
theorem c9_metadata_from_first_record_witness :
    (∀ t ∈ [rawM1, rawM2], t.PrivateIpAddresses ≠ []) ∧
    (∀ g ∈ aggregateTargets [rawM1, rawM2], ∃ t₀,
      [rawM1, rawM2].find? (fun t => t.firstIp == g.PrivateIpAddresses) = some t₀ ∧
      g.InstanceId = t₀.InstanceId ∧ g.InstanceName = t₀.InstanceName) ∧
    aggregateTargets [rawM1, rawM2]
      = [{ InstanceId := "i-1", InstanceName := "n1", PrivateIpAddresses := "10.0.0.9",
           Ports := [(80, 10), (443, 0)] }] :=
  ⟨by decide, c9_metadata_from_first_record [rawM1, rawM2] (by decide), by rfl⟩

/-! ### C6 -/

def respTwoRules : DescribeTargetsResponse :=
  { Listeners := some
      [{ ListenerId := "lbl-1"
         Rules := some [{ LocationId := "loc-1", Targets := [] },
                        { LocationId := "loc-2", Targets := [] }] }] }

def respThreeListeners : DescribeTargetsResponse :=
  { Listeners := some
      [{ ListenerId := "lbl-1", Rules := none },
       { ListenerId := "lbl-2", Rules := none },
       { ListenerId := "lbl-3", Rules := none }] }

/-- C6 (code-bug evidence): with three listeners the topology error names the
listener count 3 as the claim states; but with one listener and two rules the
code interpolates `len(resp.Listeners)` (= 1) instead of the rule count 2
into the message (`helper.py` line 131), so the message reads "… 1 != 1" and
does not name the offending rule count. -/
theorem c6_rule_count_message_bug :
    req_describe_targets respThreeListeners = .error (.listenersCount 3) ∧
    (HelperError.listenersCount 3).message
      = "DescribeTargets 失败，监听器数量为 3 != 1" ∧
    req_describe_targets respTwoRules = .error (.rulesCount 1) ∧
    (HelperError.rulesCount 1).message
      = "DescribeTargets 失败，Rules 数量为 1 != 1" ∧
    (HelperError.rulesCount 1).message ≠ (HelperError.rulesCount 2).message :=
  ⟨by rfl, by rfl, by rfl, by rfl, by decide⟩

end CLBHelper

namespace CLBHelper

/-! ### C8 -/

/-- C8: for both the online (weight 10) and the offline (weight 0) workflow,
given that each of the three fresh gateway fetches parses and that the change
succeeds, the run performs exactly: fresh fetch + render of the first
snapshot, the changer's own fresh fetch (the mutation is built from the
second snapshot `tis₁`, not from the rendered `tis₀`) with its mutation and
prints, the fixed settle sleep of 3 time units, and a final fresh fetch +
render; nothing follows, and in total exactly three gateway fetches happen. -/
theorem c8_workflow_sequence (w : World) (clb_id instance_id : String)
    (tis₀ tis₁ tis₂ : List TargetInstance) (l₀ o₀ l₁ o₁ l₂ o₂ : String)
    (cur : TargetInstance)
    (hp0 : req_describe_targets (w.gw w.calls) = .ok (tis₀, l₀, o₀))
    (hp1 : req_describe_targets (w.gw (w.calls + 1)) = .ok (tis₁, l₁, o₁))
    (hp2 : req_describe_targets (w.gw (w.calls + 2)) = .ok (tis₂, l₂, o₂))
    (hfind : tis₁.find? (fun inst => inst.InstanceId == instance_id) = some cur)
    (ho : othersOffline tis₁ instance_id = false) :
    online_clb_instance w clb_id instance_id
      = ({ w with
           calls := w.calls + 3,
           trace := w.trace ++
             [Effect.describeTargets clb_id,
              Effect.renderTable ("CLB 「" ++ clb_id ++ "」 后端列表") tis₀,
              Effect.describeTargets clb_id,
              Effect.batchModifyTargetWeight
                (req_batch_modify_target_weight clb_id l₁ o₁ instance_id
                  (cur.Ports.map Prod.fst) 10),
              Effect.printResp "接口返回" w.ack,
              Effect.print "延时 3 秒等待生效...",
              Effect.sleep 3,
              Effect.describeTargets clb_id,
              Effect.renderTable ("CLB 「" ++ clb_id ++ "」 后端列表") tis₂] }, .ok ()) ∧
    offline_clb_instance w clb_id instance_id
      = ({ w with
           calls := w.calls + 3,
           trace := w.trace ++
             [Effect.describeTargets clb_id,
              Effect.renderTable ("CLB 「" ++ clb_id ++ "」 后端列表") tis₀,
              Effect.describeTargets clb_id,
              Effect.batchModifyTargetWeight
                (req_batch_modify_target_weight clb_id l₁ o₁ instance_id
                  (cur.Ports.map Prod.fst) 0),
              Effect.printResp "接口返回" w.ack,
              Effect.print "延时 3 秒等待生效...",
              Effect.sleep 3,
              Effect.describeTargets clb_id,
              Effect.renderTable ("CLB 「" ++ clb_id ++ "」 后端列表") tis₂] }, .ok ()) := by
  have hp2' : req_describe_targets (w.gw (w.calls + 1 + 1)) = .ok (tis₂, l₂, o₂) := hp2
  constructor
  · simp [online_clb_instance, list_clb_targets, change_clb_instance_weight,
      doDescribeTargets, hp0, hp1, hp2', hfind, ho, List.append_assoc]
  · simp [offline_clb_instance, list_clb_targets, change_clb_instance_weight,
      doDescribeTargets, hp0, hp1, hp2', hfind, ho, List.append_assoc]

end CLBHelper

namespace CLBHelper

/-- Witness for C8 at a concrete input: the standard two-instance world,
onlining and offlining instance `i-a`. -/
theorem c8_workflow_sequence_witness :
    req_describe_targets (wStd.gw wStd.calls) = .ok ([instA, instB], "lbl-1", "loc-1") ∧
    req_describe_targets (wStd.gw (wStd.calls + 1)) = .ok ([instA, instB], "lbl-1", "loc-1") ∧
    req_describe_targets (wStd.gw (wStd.calls + 2)) = .ok ([instA, instB], "lbl-1", "loc-1") ∧
    [instA, instB].find? (fun inst => inst.InstanceId == "i-a") = some instA ∧
    othersOffline [instA, instB] "i-a" = false ∧
    (online_clb_instance wStd "lb-1" "i-a"
      = ({ wStd with
           calls := wStd.calls + 3,
           trace := wStd.trace ++
             [Effect.describeTargets "lb-1",
              Effect.renderTable ("CLB 「" ++ "lb-1" ++ "」 后端列表") [instA, instB],
              Effect.describeTargets "lb-1",
              Effect.batchModifyTargetWeight
                (req_batch_modify_target_weight "lb-1" "lbl-1" "loc-1" "i-a"
                  (instA.Ports.map Prod.fst) 10),
              Effect.printResp "接口返回" wStd.ack,
              Effect.print "延时 3 秒等待生效...",
              Effect.sleep 3,
              Effect.describeTargets "lb-1",
              Effect.renderTable ("CLB 「" ++ "lb-1" ++ "」 后端列表") [instA, instB]] },
         .ok ()) ∧
    offline_clb_instance wStd "lb-1" "i-a"
      = ({ wStd with
           calls := wStd.calls + 3,
           trace := wStd.trace ++
             [Effect.describeTargets "lb-1",
              Effect.renderTable ("CLB 「" ++ "lb-1" ++ "」 后端列表") [instA, instB],
              Effect.describeTargets "lb-1",
              Effect.batchModifyTargetWeight
                (req_batch_modify_target_weight "lb-1" "lbl-1" "loc-1" "i-a"
                  (instA.Ports.map Prod.fst) 0),
              Effect.printResp "接口返回" wStd.ack,
              Effect.print "延时 3 秒等待生效...",
              Effect.sleep 3,
              Effect.describeTargets "lb-1",
              Effect.renderTable ("CLB 「" ++ "lb-1" ++ "」 后端列表") [instA, instB]] },
         .ok ())) :=
  ⟨by rfl, by rfl, by rfl, by rfl, by rfl,
   c8_workflow_sequence wStd "lb-1" "i-a" [instA, instB] [instA, instB] [instA, instB]
     "lbl-1" "loc-1" "lbl-1" "loc-1" "lbl-1" "loc-1" instA
     (by rfl) (by rfl) (by rfl) (by rfl) (by rfl)⟩

end CLBHelper
